import Mathlib

/-!
Shallow embedding of the platypus MOOSE↔MFEM wrapper layer
(`MFEMProblem`, `platypus::Problem`, `platypus::ProblemBuilder`,
`platypus::EquationSystemProblemBuilderInterface`, `MFEMMaterial`,
`platypus::TimeDomainProblemOperator`), together with theorems checking
the natural-language specification against it.

Opaque objects of the wrapped libraries (MFEM kernels, grid functions,
meshes, solvers, vectors) are embedded as abstract structures carrying an
identifier: the wrapper never inspects their contents, only stores and
passes them around, so the identifier representation is faithful.
Name-keyed registries (`platypus::NamedFieldsMap`) are embedded as
association lists keyed by strings.
-/

namespace PlatypusSpec

/-- Opaque MFEM kernel object (`MFEMKernel<T>`); the wrapper only stores it. -/
structure MFEMKernel where
  id : Nat
deriving DecidableEq, Repr

/-- Opaque MFEM grid function object (`mfem::ParGridFunction`). -/
structure GridFunction where
  id : Nat
deriving DecidableEq, Repr

/-- Opaque MFEM finite element collection object (`mfem::FiniteElementCollection`). -/
structure FECollection where
  id : Nat
deriving DecidableEq, Repr

/-- Opaque MFEM finite element space object (`mfem::ParFiniteElementSpace`). -/
structure FESpace where
  id : Nat
deriving DecidableEq, Repr

/-- Opaque MFEM parallel mesh object (`mfem::ParMesh`). -/
structure ParMesh where
  id : Nat
deriving DecidableEq, Repr

/-- Opaque MFEM ODE solver object (`mfem::ODESolver`), held on the Problem state. -/
structure ODESolver where
  id : Nat
deriving DecidableEq, Repr

/-- Opaque MFEM Newton solver object (`mfem::NewtonSolver`), held on the Problem state. -/
structure NewtonSolver where
  id : Nat
deriving DecidableEq, Repr

/-- Opaque platypus boundary condition object (`platypus::BoundaryCondition`). -/
structure BoundaryCondition where
  id : Nat
deriving DecidableEq, Repr

/-- Opaque MFEM coefficient object (`mfem::Coefficient`). -/
structure Coefficient where
  id : Nat
deriving DecidableEq, Repr

/-- Opaque MFEM vector object (`mfem::Vector`); `ImplicitSolve` never reads it. -/
structure MfemVector where
  id : Nat
deriving DecidableEq, Repr

/-- Opaque MFEM solver object (`mfem::Solver`). -/
structure Solver where
  id : Nat
deriving DecidableEq, Repr

/-- A name-keyed registry (`platypus::NamedFieldsMap<T>`): an association
list from names to stored objects; later bindings shadow earlier ones. -/
abbrev Registry (α : Type) : Type := List (String × α)

/-- Lookup in a registry by name: the value of the most recent binding. -/
def Registry.lookup {α : Type} (r : Registry α) (name : String) : Option α :=
  match r with
  | [] => none
  | (k, v) :: rest => if name = k then some v else Registry.lookup rest name

/-- Whether a name is registered. -/
def Registry.Has {α : Type} (r : Registry α) (name : String) : Prop :=
  (r.lookup name).isSome = true

instance {α : Type} (r : Registry α) (name : String) : Decidable (r.Has name) := by
  unfold Registry.Has
  infer_instance

/-- Register an object under a name: the new binding is placed at the
front, shadowing (but not deleting the key of) any earlier binding. -/
def Registry.Register {α : Type} (r : Registry α) (name : String) (obj : α) : Registry α :=
  (name, obj) :: r

/-- The empty registry. -/
def Registry.empty {α : Type} : Registry α := []

/-!
## Equation system (`platypus::EquationSystem`)

Only two of its operations are called from the sources under study:
`AddTrialVariableNameIfMissing` and `AddKernel`. Their bodies live in
`equation_system.h`, which is not among the sources, so they are modelled
from the spec and from their call sites.
-/

/-- The equation system state: the ordered list of trial variable names and
the kernels registered so far, each under a trial variable name. -/
structure EquationSystem where
  trial_var_names : List String
  kernels : List (String × MFEMKernel)
deriving DecidableEq, Repr

/-- Modelled from the spec: the body of
`EquationSystem::AddTrialVariableNameIfMissing` is not among the sources
(only its call sites are); per the spec sentence on adding the trial
variable name "when missing", it appends the name exactly when it is not
yet present. -/
def EquationSystem.AddTrialVariableNameIfMissing (es : EquationSystem)
    (var_name : String) : EquationSystem :=
  if var_name ∈ es.trial_var_names then es
  else { es with trial_var_names := es.trial_var_names ++ [var_name] }

/-- Modelled from the spec: the body of `EquationSystem::AddKernel` is not
among the sources (only its call sites are); per the spec it registers the
kernel under the given trial variable name. -/
def EquationSystem.AddKernel (es : EquationSystem) (var_name : String)
    (kernel : MFEMKernel) : EquationSystem :=
  { es with kernels := es.kernels ++ [(var_name, kernel)] }

/-!
## MFEMProblem and its problem data

`MFEMProblemData` holds (among other fields) the optional equation system
`_eqn_system` and the grid function registry; `MFEMProblem` methods act on
it by state passing.
-/

/-- The problem data held by `MFEMProblem` (`MFEMProblemData`): the
optional equation system and the grid function registry the wrapper
manipulates. -/
structure MFEMProblemData where
  eqn_system : Option EquationSystem
  gridfunctions : Registry GridFunction

/-- `MFEMProblem::addKernel` (the protected template overload,
`src/unnamed/part_000` lines 185–199): if the problem data holds an
equation system, add the trial variable name if missing and register the
kernel under it; otherwise raise `mooseError`, embedded as `Except.error`
with the error text. -/
def MFEMProblem.addKernelT (var_name : String) (kernel : MFEMKernel)
    (data : MFEMProblemData) : Except String MFEMProblemData :=
  match data.eqn_system with
  | some es =>
      Except.ok { data with
        eqn_system := some ((es.AddTrialVariableNameIfMissing var_name).AddKernel
          var_name kernel) }
  | none =>
      Except.error ("Cannot add kernel with name \x27" ++ var_name ++
        "\x27 because there is no equation system.")

/-- `MFEMProblem::nlConverged` (`src/unnamed/part_000` line 30): returns
`true` for every nonlinear system number. -/
def MFEMProblem.nlConverged (nl_sys_num : Nat) : Bool :=
  true

/-- `MFEMProblem::externalSolve` (`src/unnamed/part_000` line 29): empty
body, the state is returned unchanged. -/
def MFEMProblem.externalSolve (data : MFEMProblemData) : MFEMProblemData :=
  data

/-- The `Direction` enumeration of `ExternalProblem::syncSolutions`. -/
inductive Direction where
  | toExternalApp
  | fromExternalApp
deriving DecidableEq, Repr

/-- `MFEMProblem::syncSolutions` (`src/unnamed/part_000` line 31): empty
body, the state is returned unchanged for either direction. -/
def MFEMProblem.syncSolutions (direction : Direction)
    (data : MFEMProblemData) : MFEMProblemData :=
  data

/-!
## EquationSystemProblemBuilderInterface
-/

/-- `EquationSystemProblemBuilderInterface::AddKernel`
(`src/unnamed/part_000` lines 353–358): on the equation system returned by
`GetEquationSystem()`, add the trial variable name if missing, then
register the kernel. -/
def EquationSystemProblemBuilderInterface.AddKernel (es : EquationSystem)
    (var_name : String) (kernel : MFEMKernel) : EquationSystem :=
  (es.AddTrialVariableNameIfMissing var_name).AddKernel var_name kernel

/-!
## The base problem class (`platypus::Problem`)

`src/unnamed/part_000` lines 215–248: the Problem state holds the mesh,
the boundary condition map, the coefficient registry, the MFEM ODE solver
and Newton solver objects (time integration and Newton iteration are only
held, never implemented here), and the name-keyed registries of FE
collections, FE spaces and grid functions.
-/

/-- `platypus::Problem` (`src/unnamed/part_000` lines 215–248). Nullable
smart pointers (`_pmesh`, `_ode_solver`, `_jacobian_preconditioner`,
`_jacobian_solver`, `_nonlinear_solver`) are embedded as `Option`. -/
structure Problem where
  pmesh : Option ParMesh
  bc_map : Registry BoundaryCondition
  coefficients : Registry Coefficient
  ode_solver : Option ODESolver
  jacobian_preconditioner : Option Solver
  jacobian_solver : Option Solver
  nonlinear_solver : Option NewtonSolver
  fecs : Registry FECollection
  fespaces : Registry FESpace
  gridfunctions : Registry GridFunction
deriving DecidableEq, Repr

/-!
## Time domain problem operator

`src/include/problem_operators/time_domain_problem_operator.h`:
`TimeDomainProblemOperator` holds the problem reference and the trial
variable state of `ProblemOperatorInterface`; its `ImplicitSolve` has an
empty body.
-/

/-- `platypus::TimeDomainProblemOperator` state: the problem it operates on
and the trial variable state of `ProblemOperatorInterface`. -/
structure TimeDomainProblemOperator where
  problem : Problem
  trial_var_names : List String
  trial_variables : Registry GridFunction

/-- `TimeDomainProblemOperator::ImplicitSolve`
(`src/include/problem_operators/time_domain_problem_operator.h` line 21):
empty body, so the operator state and the output vector `dX_dt` are
returned unchanged for every `dt` and every input vector `X`. The C++
`double dt` is embedded as `Rat`; the body never reads it, so the
representation is irrelevant. -/
def TimeDomainProblemOperator.ImplicitSolve (op : TimeDomainProblemOperator)
    (dt : Rat) (X : MfemVector) (dX_dt : MfemVector) :
    TimeDomainProblemOperator × MfemVector :=
  (op, dX_dt)

/-!
## MFEMMaterial (`src/include/materials/MFEMMaterial.h`)
-/

/-- `platypus::Subdomain` (declared in `coefficients.h`, outside the
sources): a named mesh subdomain with an integer attribute id and its
stored coefficients. Only its unchangedness matters here. -/
structure Subdomain where
  name : String
  id : Int
  scalar_coefficients : Registry Coefficient
deriving DecidableEq, Repr

/-- `MFEMMaterial` (`src/include/materials/MFEMMaterial.h`): its own state
is the list of subdomain names it applies to (`blocks`). -/
structure MFEMMaterial where
  blocks : List String
deriving DecidableEq, Repr

/-- `MFEMMaterial::execute` (`MFEMMaterial.h` line 15): empty body. -/
def MFEMMaterial.execute (m : MFEMMaterial) : MFEMMaterial :=
  m

/-- `MFEMMaterial::initialize` (`MFEMMaterial.h` line 16): empty body.
(The C++ method name itself cannot be used as a Lean name here.) -/
def MFEMMaterial.initializeM (m : MFEMMaterial) : MFEMMaterial :=
  m

/-- `MFEMMaterial::finalize` (`MFEMMaterial.h` line 17): empty body. -/
def MFEMMaterial.finalizeM (m : MFEMMaterial) : MFEMMaterial :=
  m

/-- `MFEMMaterial::storeCoefficients` (`MFEMMaterial.h` line 19): the
default implementation has an empty body, leaving the material and the
subdomain unchanged. -/
def MFEMMaterial.storeCoefficients (m : MFEMMaterial) (subdomain : Subdomain) :
    MFEMMaterial × Subdomain :=
  (m, subdomain)

/-!
## ProblemBuilder (`src/unnamed/part_000` lines 251–344)
-/

/-- `platypus::ProblemBuilder` private state: the shared pointer to the
problem (`_problem`), nullable, so embedded as `Option`. -/
structure ProblemBuilder where
  problem : Option Problem

/-- The protected `ProblemBuilder::ProblemBuilder(platypus::Problem *)`
constructor (`src/unnamed/part_000` lines 296–299): wraps the given raw
pointer (possibly null) into the stored shared pointer. -/
def ProblemBuilder.mkFrom (problem : Option Problem) : ProblemBuilder :=
  ⟨problem⟩

/-- The template getter `ProblemBuilder::GetProblem<TDerivedProblem>`
(`src/unnamed/part_000` lines 328–337): aborts (`MFEM_ABORT`, embedded as
`Except.error` with the abort text) when the stored problem pointer is
null, and otherwise returns the stored problem. -/
def ProblemBuilder.GetProblemT (b : ProblemBuilder) : Except String Problem :=
  match b.problem with
  | none => Except.error "platypus::Problem instance is NULL."
  | some p => Except.ok p

/-- `ProblemBuilder::ReturnProblem` (`src/unnamed/part_000` line 292):
returns the stored shared pointer to the problem. -/
def ProblemBuilder.ReturnProblem (b : ProblemBuilder) : Option Problem :=
  b.problem

/-!
## Builder registration operations (spec-modelled)

The bodies of `AddFESpace`, `AddGridFunction`, `SetCoefficients` and
`AddBoundaryCondition` live in `problem_builder_base.C`, which is not
among the sources; only their declarations (`src/unnamed/part_000` lines
260–270) are. They are modelled from the spec sentence on maintaining
name-keyed registries, acting on the builder's stored `Problem`.
-/

/-- Modelled from the spec: the body of `ProblemBuilder::AddFESpace` is
not among the sources. Per the spec it registers a new FE collection
under `fec_name` (when that name is not yet registered) and a new FE
space under `fespace_name` (when that name is not yet registered); the
`vdim` and `ordering` arguments configure the opaque FE space object. -/
def ProblemBuilder.AddFESpace (p : Problem) (fespace_name fec_name : String)
    (vdim : Int) (ordering : Int) : Problem :=
  let p1 :=
    if p.fecs.Has fec_name then p
    else { p with fecs := p.fecs.Register fec_name ⟨0⟩ }
  if p1.fespaces.Has fespace_name then p1
  else { p1 with fespaces := p1.fespaces.Register fespace_name ⟨vdim.toNat + ordering.toNat⟩ }

/-- Modelled from the spec: the body of `ProblemBuilder::AddGridFunction`
is not among the sources. Per the spec it registers a new grid function
on the FE space named `fespace_name` under `gridfunction_name` (when that
name is not yet registered). -/
def ProblemBuilder.AddGridFunction (p : Problem)
    (gridfunction_name fespace_name : String) : Problem :=
  if p.gridfunctions.Has gridfunction_name then p
  else { p with gridfunctions := p.gridfunctions.Register gridfunction_name ⟨fespace_name.length⟩ }

/-- Modelled from the spec: the body of `ProblemBuilder::SetCoefficients`
is not among the sources. Per the spec it adds the given named
coefficients to the problem's coefficient registry, without removing
entries already registered. -/
def ProblemBuilder.SetCoefficients (p : Problem)
    (coefficients : Registry Coefficient) : Problem :=
  { p with coefficients := coefficients ++ p.coefficients }

/-- Modelled from the spec: the body of
`ProblemBuilder::AddBoundaryCondition` is not among the sources. Per the
spec it registers the given boundary condition under `bc_name` in the
problem's boundary condition map. -/
def ProblemBuilder.AddBoundaryCondition (p : Problem) (bc_name : String)
    (bc : BoundaryCondition) : Problem :=
  { p with bc_map := p.bc_map.Register bc_name bc }

/-!
## FinalizeProblem (spec-modelled)
-/

/-- The setup steps of `ProblemBuilder::FinalizeProblem`, in the order the
spec names them. -/
inductive SetupStep where
  | registerFESpaces
  | registerGridFunctions
  | registerCoefficients
  | constructNonlinearSolver
  | constructOperator
  | constructState
  | constructTimestepper
deriving DecidableEq, Repr

/-- The implementations of the builder's virtual setup methods
(`RegisterFESpaces`, `RegisterGridFunctions`, `RegisterCoefficients`,
`ConstructNonlinearSolver`, `ConstructOperator`, `ConstructState`,
`ConstructTimestepper`), supplied by derived builder classes outside the
sources; each acts on the stored problem. -/
structure BuilderImpl where
  registerFESpaces : Problem → Problem
  registerGridFunctions : Problem → Problem
  registerCoefficients : Problem → Problem
  constructNonlinearSolver : Problem → Problem
  constructOperator : Problem → Problem
  constructState : Problem → Problem
  constructTimestepper : Problem → Problem

/-- Dispatch one setup step to the supplied implementation. -/
def BuilderImpl.applyStep (impl : BuilderImpl) (s : SetupStep) (p : Problem) :
    Problem :=
  match s with
  | SetupStep.registerFESpaces => impl.registerFESpaces p
  | SetupStep.registerGridFunctions => impl.registerGridFunctions p
  | SetupStep.registerCoefficients => impl.registerCoefficients p
  | SetupStep.constructNonlinearSolver => impl.constructNonlinearSolver p
  | SetupStep.constructOperator => impl.constructOperator p
  | SetupStep.constructState => impl.constructState p
  | SetupStep.constructTimestepper => impl.constructTimestepper p

/-- Modelled from the spec: the body of `ProblemBuilder::FinalizeProblem`
is not among the sources (only its declaration and doc comment,
`src/unnamed/part_000` lines 286–289). Per the spec it performs the setup
calls in a fixed order — register FE spaces, register grid functions,
register coefficients, construct the nonlinear solver, construct the
operator, construct the state, construct the timestepper — skipping the
`ConstructOperator` step exactly when `build_operator` is false. Returns
the trace of steps performed together with the transformed problem. -/
def ProblemBuilder.FinalizeProblem (impl : BuilderImpl) (build_operator : Bool)
    (p : Problem) : List SetupStep × Problem :=
  let steps :=
    [SetupStep.registerFESpaces, SetupStep.registerGridFunctions,
      SetupStep.registerCoefficients, SetupStep.constructNonlinearSolver] ++
    (if build_operator then [SetupStep.constructOperator] else []) ++
    [SetupStep.constructState, SetupStep.constructTimestepper]
  (steps, steps.foldl (fun q s => impl.applyStep s q) p)

/-!
## addVariable and time derivative names (spec-modelled)
-/

/-- Modelled from the spec: the body of `platypus::GetTimeDerivativeName`
is not among the sources (`GetTimeDerivativeNames` is only declared in
`time_domain_problem_operator.h` line 8); per the spec it forms the name
of the time derivative of a grid function. -/
def GetTimeDerivativeName (gridfunction_name : String) : String :=
  "d" ++ gridfunction_name ++ "_dt"

/-- Modelled from the spec: `platypus::GetTimeDerivativeNames` (declared
at `time_domain_problem_operator.h` line 8, body not among the sources)
maps each grid function name to its time derivative name. -/
def GetTimeDerivativeNames (gridfunction_names : List String) : List String :=
  gridfunction_names.map GetTimeDerivativeName

/-- Modelled from the spec: the body of `MFEMProblem::addVariable` is not
among the sources (only its declaration and doc comment,
`src/unnamed/part_000` lines 88–93). Per the spec it registers an MFEM
grid function for the variable in the problem's grid function registry,
and for transient problems also registers the time-derivative grid
functions named via `GetTimeDerivativeNames`. -/
def MFEMProblem.addVariable (transient : Bool) (var_name : String)
    (data : MFEMProblemData) : MFEMProblemData :=
  let d1 := { data with
    gridfunctions := data.gridfunctions.Register var_name ⟨0⟩ }
  if transient then
    { d1 with
      gridfunctions :=
        (GetTimeDerivativeNames [var_name]).foldl
          (fun r n => r.Register n ⟨1⟩) d1.gridfunctions }
  else d1

end PlatypusSpec

namespace PlatypusSpec

/-!
## Theorems
-/

/-- Claim C1: for every call to the protected template overload
`MFEMProblem::addKernel`, if the problem data holds an equation system then
the trial variable name is added to it when missing and the kernel is
registered under that name; if it holds no equation system, the call
reports the "no equation system" error and the problem data is left
unchanged (no updated data is produced). -/
theorem addKernelT_spec (var_name : String) (kernel : MFEMKernel)
    (data : MFEMProblemData) :
    (∀ es, data.eqn_system = some es →
      ∃ es2, MFEMProblem.addKernelT var_name kernel data =
          Except.ok { data with eqn_system := some es2 } ∧
        var_name ∈ es2.trial_var_names ∧
        (var_name, kernel) ∈ es2.kernels ∧
        es2.trial_var_names =
          (if var_name ∈ es.trial_var_names then es.trial_var_names
           else es.trial_var_names ++ [var_name])) ∧
    (data.eqn_system = none →
      MFEMProblem.addKernelT var_name kernel data =
        Except.error ("Cannot add kernel with name \x27" ++ var_name ++
          "\x27 because there is no equation system.")) := by
  constructor
  · intro es hes
    refine ⟨(es.AddTrialVariableNameIfMissing var_name).AddKernel var_name kernel, ?_, ?_, ?_, ?_⟩
    · simp [MFEMProblem.addKernelT, hes]
    · simp only [EquationSystem.AddKernel, EquationSystem.AddTrialVariableNameIfMissing]
      by_cases h : var_name ∈ es.trial_var_names
      · simpa [h]
      · simp [h]
    · simp [EquationSystem.AddKernel]
    · simp only [EquationSystem.AddKernel, EquationSystem.AddTrialVariableNameIfMissing]
      by_cases h : var_name ∈ es.trial_var_names
      · simp [h]
      · simp [h]
  · intro hnone
    simp [MFEMProblem.addKernelT, hnone]

/-- Witness for C1 at concrete inputs: an equation system missing the
variable, and the no-equation-system case. -/
theorem addKernelT_spec_witness :
    (∀ es, (⟨some ⟨[], []⟩, []⟩ : MFEMProblemData).eqn_system = some es →
      ∃ es2, MFEMProblem.addKernelT "u" ⟨7⟩ ⟨some ⟨[], []⟩, []⟩ =
          Except.ok { (⟨some ⟨[], []⟩, []⟩ : MFEMProblemData) with eqn_system := some es2 } ∧
        "u" ∈ es2.trial_var_names ∧
        ("u", (⟨7⟩ : MFEMKernel)) ∈ es2.kernels ∧
        es2.trial_var_names =
          (if "u" ∈ es.trial_var_names then es.trial_var_names
           else es.trial_var_names ++ ["u"])) ∧
    ((⟨some ⟨[], []⟩, []⟩ : MFEMProblemData).eqn_system = none →
      MFEMProblem.addKernelT "u" ⟨7⟩ ⟨some ⟨[], []⟩, []⟩ =
        Except.error ("Cannot add kernel with name \x27" ++ "u" ++
          "\x27 because there is no equation system.")) :=
  addKernelT_spec "u" ⟨7⟩ ⟨some ⟨[], []⟩, []⟩

/-- Claim C7: `MFEMProblem::nlConverged` returns `true` for every nonlinear
system number. -/
theorem nlConverged_always_true (nl_sys_num : Nat) :
    MFEMProblem.nlConverged nl_sys_num = true :=
  rfl

/-- Claim C9: when an equation system is present, `MFEMProblem::addKernel`
and `EquationSystemProblemBuilderInterface::AddKernel` have the same effect
on the equation system: both perform `AddTrialVariableNameIfMissing`
followed by `AddKernel`, for every variable name and kernel. -/
theorem addKernelT_refines_builder_AddKernel (var_name : String)
    (kernel : MFEMKernel) (data : MFEMProblemData) (es : EquationSystem)
    (hes : data.eqn_system = some es) :
    MFEMProblem.addKernelT var_name kernel data =
      Except.ok { data with
        eqn_system :=
          some (EquationSystemProblemBuilderInterface.AddKernel es var_name kernel) } := by
  simp [MFEMProblem.addKernelT, hes, EquationSystemProblemBuilderInterface.AddKernel]

/-- Witness for C9 at a concrete problem data, variable name and kernel. -/
theorem addKernelT_refines_builder_AddKernel_witness :
    MFEMProblem.addKernelT "v" ⟨3⟩ ⟨some ⟨["v"], []⟩, []⟩ =
      Except.ok { (⟨some ⟨["v"], []⟩, []⟩ : MFEMProblemData) with
        eqn_system :=
          some (EquationSystemProblemBuilderInterface.AddKernel ⟨["v"], []⟩ "v" ⟨3⟩) } :=
  addKernelT_refines_builder_AddKernel "v" ⟨3⟩ ⟨some ⟨["v"], []⟩, []⟩ ⟨["v"], []⟩ rfl

/-- Claim C2: the wrapper performs no solving itself. `externalSolve` and
`syncSolutions` have no effect on any state, and
`TimeDomainProblemOperator::ImplicitSolve` leaves `dX_dt` and all other
state unchanged for every `dt` and every input vector `X`; Newton
iteration and time integration are only held as MFEM solver objects on the
`Problem` state (fields `nonlinear_solver` and `ode_solver`). -/
theorem wrapper_performs_no_solving :
    (∀ data, MFEMProblem.externalSolve data = data) ∧
    (∀ dir data, MFEMProblem.syncSolutions dir data = data) ∧
    (∀ (op : TimeDomainProblemOperator) (dt : Rat) (X dX_dt : MfemVector),
      op.ImplicitSolve dt X dX_dt = (op, dX_dt)) :=
  ⟨fun _ => rfl, fun _ _ => rfl, fun _ _ _ _ => rfl⟩

/-- Claim C6: `MFEMMaterial` is pure registration glue: `execute`,
`initialize`, `finalize` and the default `storeCoefficients` leave every
field of the material and of the subdomain unchanged, for every material
and every subdomain. -/
theorem material_methods_no_effect :
    ∀ (m : MFEMMaterial) (s : Subdomain),
      m.execute = m ∧ m.initializeM = m ∧ m.finalizeM = m ∧
        m.storeCoefficients s = (m, s) :=
  fun _ _ => ⟨rfl, rfl, rfl, rfl⟩

/-- Claim C8: `ProblemBuilder::GetProblem<TDerivedProblem>` aborts if and
only if the stored problem pointer is null; when the builder was
constructed with a non-null problem pointer the abort branch is
unreachable and the returned pointer points to the stored problem. -/
theorem GetProblemT_abort_iff_null (ptr : Option Problem) :
    ((ProblemBuilder.mkFrom ptr).GetProblemT =
        Except.error "platypus::Problem instance is NULL." ↔ ptr = none) ∧
    (∀ p, ptr = some p →
      (ProblemBuilder.mkFrom ptr).GetProblemT = Except.ok p) := by
  cases ptr <;> simp [ProblemBuilder.mkFrom, ProblemBuilder.GetProblemT]

/-- Registering a name keeps every registered name registered and adds
exactly the given one. -/
theorem Registry.Has_Register {α : Type} (r : Registry α) (n m : String)
    (v : α) : (r.Register n v).Has m ↔ m = n ∨ r.Has m := by
  by_cases h : m = n <;>
    simp [Registry.Has, Registry.Register, Registry.lookup, h]

/-- A name is registered in an appended registry exactly when it is
registered in one of the parts. -/
theorem Registry.Has_append {α : Type} (r s : Registry α) (n : String) :
    (Registry.Has (r ++ s) n) ↔ r.Has n ∨ s.Has n := by
  induction r with
  | nil => simp [Registry.Has, Registry.lookup]
  | cons a r ih =>
      obtain ⟨k, v⟩ := a
      by_cases h : n = k <;>
        simp_all [Registry.Has, Registry.lookup, h]

/-- A registered name is among the registry's keys. -/
theorem Registry.Has_mem_keys {α : Type} (r : Registry α) (n : String)
    (h : r.Has n) : n ∈ r.map Prod.fst := by
  induction r with
  | nil => simp [Registry.Has, Registry.lookup] at h
  | cons a r ih =>
      obtain ⟨k, v⟩ := a
      by_cases hk : n = k
      · simp [hk]
      · simp only [Registry.Has, Registry.lookup, hk, if_false] at h ih
        simp only [List.map_cons, List.mem_cons]
        exact Or.inr (ih h)

/-- Every name registered in any of the problem's registries before an
operation stays registered after it. -/
def KeysPreserved (p q : Problem) : Prop :=
  (∀ n, p.fecs.Has n → q.fecs.Has n) ∧
  (∀ n, p.fespaces.Has n → q.fespaces.Has n) ∧
  (∀ n, p.gridfunctions.Has n → q.gridfunctions.Has n) ∧
  (∀ n, p.coefficients.Has n → q.coefficients.Has n) ∧
  (∀ n, p.bc_map.Has n → q.bc_map.Has n)

/-- Any name registered after an operation was either registered before or
is among the allowed names. -/
def AddsOnly (p q : Problem) (allowed : List String) : Prop :=
  (∀ n, q.fecs.Has n → p.fecs.Has n ∨ n ∈ allowed) ∧
  (∀ n, q.fespaces.Has n → p.fespaces.Has n ∨ n ∈ allowed) ∧
  (∀ n, q.gridfunctions.Has n → p.gridfunctions.Has n ∨ n ∈ allowed) ∧
  (∀ n, q.coefficients.Has n → p.coefficients.Has n ∨ n ∈ allowed) ∧
  (∀ n, q.bc_map.Has n → p.bc_map.Has n ∨ n ∈ allowed)

/-- Claim C4: the Problem state maintains name-keyed registries, and every
builder registration operation (`AddFESpace`, `AddGridFunction`,
`SetCoefficients`, `AddBoundaryCondition`) only adds entries under the
given names, never removing entries already registered. -/
theorem registration_ops_only_add (p : Problem)
    (fespace_name fec_name gf_name bc_name : String) (vdim ordering : Int)
    (coeffs : Registry Coefficient) (bc : BoundaryCondition) :
    (KeysPreserved p (ProblemBuilder.AddFESpace p fespace_name fec_name vdim ordering) ∧
      AddsOnly p (ProblemBuilder.AddFESpace p fespace_name fec_name vdim ordering)
        [fespace_name, fec_name]) ∧
    (KeysPreserved p (ProblemBuilder.AddGridFunction p gf_name fespace_name) ∧
      AddsOnly p (ProblemBuilder.AddGridFunction p gf_name fespace_name) [gf_name]) ∧
    (KeysPreserved p (ProblemBuilder.SetCoefficients p coeffs) ∧
      AddsOnly p (ProblemBuilder.SetCoefficients p coeffs) (coeffs.map Prod.fst)) ∧
    (KeysPreserved p (ProblemBuilder.AddBoundaryCondition p bc_name bc) ∧
      AddsOnly p (ProblemBuilder.AddBoundaryCondition p bc_name bc) [bc_name]) := by
  refine ⟨?_, ?_, ?_, ?_⟩
  · unfold ProblemBuilder.AddFESpace KeysPreserved AddsOnly
    by_cases h1 : p.fecs.Has fec_name <;>
      by_cases h2 : p.fespaces.Has fespace_name <;>
        simp only [h1, h2, if_true, if_false] <;>
          refine ⟨⟨?_, ?_, ?_, ?_, ?_⟩, ?_, ?_, ?_, ?_, ?_⟩ <;>
            intro n hn <;> simp_all [Registry.Has_Register] <;> tauto
  · unfold ProblemBuilder.AddGridFunction KeysPreserved AddsOnly
    by_cases h1 : p.gridfunctions.Has gf_name <;>
      simp only [h1, if_true, if_false] <;>
        refine ⟨⟨?_, ?_, ?_, ?_, ?_⟩, ?_, ?_, ?_, ?_, ?_⟩ <;>
          intro n hn <;> simp_all [Registry.Has_Register] <;> tauto
  · unfold ProblemBuilder.SetCoefficients KeysPreserved AddsOnly
    refine ⟨⟨?_, ?_, ?_, ?_, ?_⟩, ?_, ?_, ?_, ?_, ?_⟩ <;>
      intro n hn <;> simp_all [Registry.Has_append]
    rcases hn with hn | hn
    · refine Or.inr ?_
      have hk := Registry.Has_mem_keys coeffs n hn
      simpa using hk
    · exact Or.inl hn
  · unfold ProblemBuilder.AddBoundaryCondition KeysPreserved AddsOnly
    refine ⟨⟨?_, ?_, ?_, ?_, ?_⟩, ?_, ?_, ?_, ?_, ?_⟩ <;>
      intro n hn <;> simp_all [Registry.Has_Register] <;> tauto

/-- Claim C3: `ProblemBuilder::FinalizeProblem` performs the setup
sequence in a fixed order — register FE spaces, register grid functions,
register coefficients, construct the nonlinear solver, construct the
operator, construct the state, construct the timestepper — skipping the
`ConstructOperator` step exactly when `build_operator` is false; given
that the mesh was set beforehand and that the derived builder's step
implementations register the FE spaces, construct the nonlinear solver
and construct the timestepper (each step touching only its own part of
the state), the finalized problem has its mesh, function spaces, and
time/nonlinear solver set. -/
theorem FinalizeProblem_sequence (impl : BuilderImpl) (build_operator : Bool)
    (p : Problem)
    (h_mesh0 : p.pmesh.isSome = true)
    (h_mesh_pres : ∀ s q, (impl.applyStep s q).pmesh = q.pmesh)
    (h_fes_set : ∀ q, (impl.registerFESpaces q).fespaces ≠ [])
    (h_fes_pres : ∀ s q, s ≠ SetupStep.registerFESpaces →
      (impl.applyStep s q).fespaces = q.fespaces)
    (h_nl_set : ∀ q,
      ((impl.constructNonlinearSolver q).nonlinear_solver).isSome = true)
    (h_nl_pres : ∀ s q, s ≠ SetupStep.constructNonlinearSolver →
      (impl.applyStep s q).nonlinear_solver = q.nonlinear_solver)
    (h_ode_set : ∀ q, ((impl.constructTimestepper q).ode_solver).isSome = true) :
    (ProblemBuilder.FinalizeProblem impl build_operator p).1 =
      [SetupStep.registerFESpaces, SetupStep.registerGridFunctions,
        SetupStep.registerCoefficients, SetupStep.constructNonlinearSolver] ++
      (if build_operator then [SetupStep.constructOperator] else []) ++
      [SetupStep.constructState, SetupStep.constructTimestepper] ∧
    (SetupStep.constructOperator ∈
        (ProblemBuilder.FinalizeProblem impl build_operator p).1 ↔
      build_operator = true) ∧
    ((ProblemBuilder.FinalizeProblem impl build_operator p).2.pmesh).isSome = true ∧
    (ProblemBuilder.FinalizeProblem impl build_operator p).2.fespaces ≠ [] ∧
    ((ProblemBuilder.FinalizeProblem impl build_operator p).2.nonlinear_solver).isSome
      = true ∧
    ((ProblemBuilder.FinalizeProblem impl build_operator p).2.ode_solver).isSome
      = true := by
  have hfold_t : (ProblemBuilder.FinalizeProblem impl true p).2 =
      impl.applyStep SetupStep.constructTimestepper
        (impl.applyStep SetupStep.constructState
          (impl.applyStep SetupStep.constructOperator
            (impl.applyStep SetupStep.constructNonlinearSolver
              (impl.applyStep SetupStep.registerCoefficients
                (impl.applyStep SetupStep.registerGridFunctions
                  (impl.applyStep SetupStep.registerFESpaces p)))))) := rfl
  have hfold_f : (ProblemBuilder.FinalizeProblem impl false p).2 =
      impl.applyStep SetupStep.constructTimestepper
        (impl.applyStep SetupStep.constructState
          (impl.applyStep SetupStep.constructNonlinearSolver
            (impl.applyStep SetupStep.registerCoefficients
              (impl.applyStep SetupStep.registerGridFunctions
                (impl.applyStep SetupStep.registerFESpaces p))))) := rfl
  refine ⟨rfl, ?_, ?_, ?_, ?_, ?_⟩ <;> cases build_operator
  · simp [ProblemBuilder.FinalizeProblem]
  · simp [ProblemBuilder.FinalizeProblem]
  · rw [hfold_f]; simp [h_mesh_pres, h_mesh0]
  · rw [hfold_t]; simp [h_mesh_pres, h_mesh0]
  · rw [hfold_f]; simp [h_fes_pres]; exact h_fes_set p
  · rw [hfold_t]; simp [h_fes_pres]; exact h_fes_set p
  · rw [hfold_f]; simp [h_nl_pres]; exact h_nl_set _
  · rw [hfold_t]; simp [h_nl_pres]; exact h_nl_set _
  · rw [hfold_f]; exact h_ode_set _
  · rw [hfold_t]; exact h_ode_set _

/-- A sample derived builder implementation used to instantiate the
FinalizeProblem theorem: its step implementations register one FE space,
construct the nonlinear solver and construct the timestepper, and do
nothing else. -/
def sampleImpl : BuilderImpl :=
  ⟨fun q => { q with fespaces := [("fespace", ⟨0⟩)] }, id, id,
    fun q => { q with nonlinear_solver := some ⟨0⟩ }, id, id,
    fun q => { q with ode_solver := some ⟨0⟩ }⟩

/-- A sample problem whose mesh is already set and everything else is
empty. -/
def sampleProblem : Problem :=
  ⟨some ⟨0⟩, [], [], none, none, none, none, [], [], []⟩

/-- Witness for C3: FinalizeProblem at the sample implementation, with
`build_operator = true`, on the sample problem. -/
theorem FinalizeProblem_sequence_witness :
    (ProblemBuilder.FinalizeProblem sampleImpl true sampleProblem).1 =
      [SetupStep.registerFESpaces, SetupStep.registerGridFunctions,
        SetupStep.registerCoefficients, SetupStep.constructNonlinearSolver] ++
      (if true then [SetupStep.constructOperator] else []) ++
      [SetupStep.constructState, SetupStep.constructTimestepper] ∧
    (SetupStep.constructOperator ∈
        (ProblemBuilder.FinalizeProblem sampleImpl true sampleProblem).1 ↔
      true = true) ∧
    ((ProblemBuilder.FinalizeProblem sampleImpl true sampleProblem).2.pmesh).isSome
      = true ∧
    (ProblemBuilder.FinalizeProblem sampleImpl true sampleProblem).2.fespaces ≠ [] ∧
    ((ProblemBuilder.FinalizeProblem sampleImpl true
        sampleProblem).2.nonlinear_solver).isSome = true ∧
    ((ProblemBuilder.FinalizeProblem sampleImpl true
        sampleProblem).2.ode_solver).isSome = true :=
  FinalizeProblem_sequence sampleImpl true sampleProblem
    rfl
    (by intro s q; cases s <;> rfl)
    (by intro q; simp [sampleImpl])
    (by intro s q hs; cases s <;> simp_all [sampleImpl, BuilderImpl.applyStep])
    (by intro q; simp [sampleImpl])
    (by intro s q hs; cases s <;> simp_all [sampleImpl, BuilderImpl.applyStep])
    (by intro q; simp [sampleImpl])

/-- Claim C5: every call to `MFEMProblem::addVariable` registers a grid
function for the variable in the problem's grid function registry, and
for transient problems the time-derivative grid functions named via
`GetTimeDerivativeNames` are registered as well. -/
theorem addVariable_registers_gridfunction (transient : Bool)
    (var_name : String) (data : MFEMProblemData) :
    ((MFEMProblem.addVariable transient var_name data).gridfunctions.Has var_name) ∧
    (transient = true →
      ∀ n ∈ GetTimeDerivativeNames [var_name],
        (MFEMProblem.addVariable transient var_name data).gridfunctions.Has n) := by
  cases transient <;>
    simp_all [MFEMProblem.addVariable, GetTimeDerivativeNames, List.foldl,
      Registry.Has_Register]

end PlatypusSpec
